import Mathlib

/-!
# Verification of the Paexkey crawler (`paexkey.py`)

Shallow embedding of the crawler's core: the Python string primitives it
relies on, the four URL-extraction strategies of `extract_urls`, the
fetch/visited/depth gating, the `__main__` crawl loop, and the keyword
filter.  External collaborators (HTTP transport, the BeautifulSoup parser,
`urllib.parse.urljoin`, the file system) are modelled as explicit data:
a `World` maps URLs to responses, and a parsed page is a `Doc` (the tag
list the parser would yield, plus the decoded body text).
-/

namespace Paexkey

/-! ## Python string primitives -/

/-- Python `str.startswith`: prefix test on the character sequence. -/
def pyStartsWith (s pre : String) : Bool :=
  pre.data.isPrefixOf s.data

/-- Python `str.endswith`: suffix test on the character sequence. -/
def pyEndsWith (s suf : String) : Bool :=
  suf.data.isSuffixOf s.data

/-- Substring containment on character lists (Python `need in hay`). -/
def containsSub : List Char → List Char → Bool
  | hay, need =>
    need.isPrefixOf hay ||
      match hay with
      | [] => false
      | _ :: t => containsSub t need

/-- Python `sub in s` for strings. -/
def pyIn (sub s : String) : Bool :=
  containsSub s.data sub.data

/-- The characters stripped by Python `str.strip()` (ASCII whitespace:
space, tab, newline, carriage return, vertical tab, form feed). -/
def pyIsSpace (c : Char) : Bool :=
  c = ' ' || c = '\t' || c = '\n' || c = '\r' || c.toNat = 0x0b || c.toNat = 0x0c

/-- Python `str.strip()`: drop leading and trailing whitespace. -/
def pystrip (s : String) : String :=
  ⟨((s.data.dropWhile pyIsSpace).reverse.dropWhile pyIsSpace).reverse⟩

/-! ## `is_textual_content` (src/paexkey.py lines 17-18) -/

/-- `return content_type.startswith('text/') or content_type == 'application/javascript'` -/
def is_textual_content (content_type : String) : Bool :=
  pyStartsWith content_type "text/" || content_type == "application/javascript"

/-! ## A small regular-expression engine

Python's `re` backtracking engine, restricted to the constructs the source
uses: literals, character classes (lists of inclusive codepoint ranges),
concatenation, alternation and Kleene star.  Matching is via Brzozowski
derivatives; `reFindAll` mirrors `re.findall`'s left-to-right scan of
non-overlapping matches.  (The derivative scan takes the longest match at
each position where Python's engine takes its backtracking-preferred one;
the two agree on whether any match exists, which is all the theorems below
use.) -/

inductive RE where
  | void
  | eps
  | lit (c : Char)
  | cls (rs : List (Nat × Nat))
  | seq (a b : RE)
  | alt (a b : RE)
  | star (a : RE)

/-- Does the regex accept the empty string? -/
def nullable : RE → Bool
  | .void => false
  | .eps => true
  | .lit _ => false
  | .cls _ => false
  | .seq a b => nullable a && nullable b
  | .alt a b => nullable a || nullable b
  | .star _ => true

/-- Smart sequencing: absorb the empty language and drop `eps`. -/
def sseq : RE → RE → RE
  | .void, _ => .void
  | _, .void => .void
  | .eps, b => b
  | a, .eps => a
  | a, b => .seq a b

/-- Smart alternation: drop the empty language. -/
def salt : RE → RE → RE
  | .void, b => b
  | a, .void => a
  | a, b => .alt a b

/-- Brzozowski derivative with respect to one character. -/
def deriv : RE → Char → RE
  | .void, _ => .void
  | .eps, _ => .void
  | .lit c, x => if x = c then .eps else .void
  | .cls rs, x => if rs.any (fun p => decide (p.1 ≤ x.toNat) && decide (x.toNat ≤ p.2)) then .eps else .void
  | .seq a b, x => if nullable a then salt (sseq (deriv a x) b) (deriv b x) else sseq (deriv a x) b
  | .alt a b, x => salt (deriv a x) (deriv b x)
  | .star a, x => sseq (deriv a x) (.star a)

/-- Length of the longest match of `r` at the start of `s` (tracking the
best length seen so far in `best`, with `k` characters already consumed). -/
def longestMatchAux : RE → List Char → Nat → Option Nat → Option Nat
  | r, [], k, best => if nullable r then some k else best
  | r, c :: cs, k, best =>
    longestMatchAux (deriv r c) cs (k + 1) (if nullable r then some k else best)

/-- Length of the longest match of `r` at the start of `s`, if any. -/
def longestMatch (r : RE) (s : List Char) : Option Nat :=
  longestMatchAux r s 0 none

/-- `re.findall`: scan left to right for non-overlapping matches; on an
empty match or a failure, resume one character further.  Fuel is the
string length plus one, enough since every step consumes a character. -/
def reFindAllAux (r : RE) : Nat → List Char → List String
  | 0, _ => []
  | _ + 1, [] => if nullable r then [""] else []
  | f + 1, c :: cs =>
    match longestMatch r (c :: cs) with
    | none => reFindAllAux r f cs
    | some 0 => "" :: reFindAllAux r f cs
    | some (m + 1) =>
      String.mk ((c :: cs).take (m + 1)) :: reFindAllAux r f ((c :: cs).drop (m + 1))

/-- All matches of `r` in `s`, as `re.findall` returns them. -/
def reFindAll (r : RE) (s : List Char) : List String :=
  reFindAllAux r (s.length + 1) s

/-! ## The free-text URL pattern (src/paexkey.py lines 74-91)

The source passes a triple-quoted pattern to `re.findall` WITHOUT the
`re.VERBOSE` flag.  `(?#...)` groups are comments under any flags, but the
newline-plus-eight-spaces runs that lay the pattern out are ordinary
literal characters and must be matched in the subject text.  The
transcription below therefore interleaves `wsRun` (the literal
`"\n        "`) exactly where the source's line breaks sit: one leading
run, three between the scheme and the userinfo (two comment-only lines),
two between every later pair of parts, and one trailing run. -/

/-- Literal string as a regex. -/
def strOf : List Char → RE
  | [] => .eps
  | c :: cs => .seq (.lit c) (strOf cs)

/-- `r?` (greedy optional). -/
def ropt (r : RE) : RE := .alt r .eps

/-- `r+`. -/
def rplus (r : RE) : RE := .seq r (.star r)

/-- `r` repeated exactly `n` times. -/
def reps (r : RE) : Nat → RE
  | 0 => .eps
  | n + 1 => .seq r (reps r n)

/-- `r` repeated at most `n` times (greedy). -/
def repsUpTo (r : RE) : Nat → RE
  | 0 => .eps
  | n + 1 => .alt (.seq r (repsUpTo r n)) .eps

/-- `r` with a `{lo,hi}` counted repetition. -/
def repRange (r : RE) (lo hi : Nat) : RE := .seq (reps r lo) (repsUpTo r (hi - lo))

/-- The literal layout run `"\n        "` (newline + 8 spaces of indent). -/
def wsRun : RE := strOf "\n        ".data

/-- `(?:https?|ftp|smtp)` -/
def schemeRE : RE :=
  .alt (.seq (strOf "http".data) (ropt (.lit 's')))
    (.alt (strOf "ftp".data) (strOf "smtp".data))

/-- `[\x21-\x39\x3b-\x3f\x41-\x7e]` (and the equivalent `[!-9;-?A-~]`). -/
def userCls : RE := .cls [(0x21, 0x39), (0x3b, 0x3f), (0x41, 0x7e)]

/-- `(?:[\x21-\x39\x3b-\x3f\x41-\x7e]+(?::[!-9;-?A-~]+)?@)?` -/
def userinfoRE : RE :=
  ropt (.seq (rplus userCls)
    (.seq (ropt (.seq (.lit ':') (rplus userCls))) (.lit '@')))

/-- `[0-9a-z]` -/
def lowerDigitCls : RE := .cls [(0x30, 0x39), (0x61, 0x7a)]

/-- `[0-9A-Za-z_-]` -/
def wordDashCls : RE := .cls [(0x30, 0x39), (0x41, 0x5a), (0x61, 0x7a), (0x5f, 0x5f), (0x2d, 0x2d)]

/-- `[0-9A-Za-z-]` -/
def alnumDashCls : RE := .cls [(0x30, 0x39), (0x41, 0x5a), (0x61, 0x7a), (0x2d, 0x2d)]

/-- `[0-9A-Za-z]` -/
def alnumCls : RE := .cls [(0x30, 0x39), (0x41, 0x5a), (0x61, 0x7a)]

/-- `xn--[0-9a-z]+` -/
def punyRE : RE := .seq (strOf "xn--".data) (rplus lowerDigitCls)

/-- `(?:xn--[0-9a-z]+|[0-9A-Za-z_-]+\.)*(?:xn--[0-9a-z]+|[0-9A-Za-z-]+)\.(?:xn--[0-9a-z]+|[0-9A-Za-z]{2,10})` -/
def domainRE : RE :=
  .seq (.star (.alt punyRE (.seq (rplus wordDashCls) (.lit '.'))))
    (.seq (.alt punyRE (rplus alnumDashCls))
      (.seq (.lit '.') (.alt punyRE (repRange alnumCls 2 10))))

/-- `\d` -/
def digitCls : RE := .cls [(0x30, 0x39)]

/-- `(?::(?:6553[0-5]|655[0-2]\d|65[0-4]\d{2}|6[0-4]\d{3}|[1-5]\d{4}|[1-9]\d{1,3}|\d))?` -/
def portRE : RE :=
  ropt (.seq (.lit ':')
    (.alt (.seq (strOf "6553".data) (.cls [(0x30, 0x35)]))
      (.alt (.seq (strOf "655".data) (.seq (.cls [(0x30, 0x32)]) digitCls))
        (.alt (.seq (strOf "65".data) (.seq (.cls [(0x30, 0x34)]) (reps digitCls 2)))
          (.alt (.seq (.lit '6') (.seq (.cls [(0x30, 0x34)]) (reps digitCls 3)))
            (.alt (.seq (.cls [(0x31, 0x35)]) (reps digitCls 4))
              (.alt (.seq (.cls [(0x31, 0x39)]) (repRange digitCls 1 3))
                digitCls)))))))

/-- `[\x21\x22\x24\x25\x27-x2e\x30-\x3b\x3e\x40-\x5b\x5d-\x7e]`: the source's
class as written; note the missing backslash in `\x27-x2e`, which makes it
the range `\x27`-`x` (0x27-0x78) followed by the literal characters `2`
and `e`. -/
def pathCls : RE :=
  .cls [(0x21, 0x21), (0x22, 0x22), (0x24, 0x24), (0x25, 0x25), (0x27, 0x78),
    (0x32, 0x32), (0x65, 0x65), (0x30, 0x3b), (0x3e, 0x3e), (0x40, 0x5b), (0x5d, 0x7e)]

/-- `(?:/[...]*)*` over `pathCls`. -/
def pathRE : RE := .star (.seq (.lit '/') (.star pathCls))

/-- `(?:\#[...]*)?` over the same class as the path. -/
def anchorRE : RE := ropt (.seq (.lit '#') (.star pathCls))

/-- `[\x21\x22\x24\x25\x27-\x2e\x30-\x3b\x40-\x5b\x5d-\x7e]` -/
def queryCls : RE :=
  .cls [(0x21, 0x21), (0x22, 0x22), (0x24, 0x24), (0x25, 0x25), (0x27, 0x2e),
    (0x30, 0x3b), (0x40, 0x5b), (0x5d, 0x7e)]

/-- `(?:\?[...]+=[...]*)?` -/
def queryRE : RE :=
  ropt (.seq (.lit '?') (.seq (rplus queryCls) (.seq (.lit '=') (.star queryCls))))

/-- `(?:&[...]+=[...]*)*` -/
def paramsRE : RE :=
  .star (.seq (.lit '&') (.seq (rplus queryCls) (.seq (.lit '=') (.star queryCls))))

/-- Everything of the free-text pattern after its leading layout run. -/
def linkTail : RE :=
  .seq schemeRE (.seq (strOf "://".data)
    (.seq wsRun (.seq wsRun (.seq wsRun
      (.seq userinfoRE (.seq wsRun (.seq wsRun
        (.seq domainRE (.seq wsRun (.seq wsRun
          (.seq portRE (.seq wsRun (.seq wsRun
            (.seq pathRE (.seq wsRun (.seq wsRun
              (.seq anchorRE (.seq wsRun (.seq wsRun
                (.seq queryRE (.seq wsRun (.seq wsRun
                  (.seq paramsRE wsRun)))))))))))))))))))))))

/-- The free-text URL pattern of src/paexkey.py lines 74-91, as compiled
(without `re.VERBOSE`): a leading literal layout run, then the parts. -/
def linkRE : RE := .seq wsRun linkTail

/-- Strategy 4 (src/paexkey.py lines 74-92): `re.findall(pattern, response.text)`. -/
def freeTextScan (text : String) : List String :=
  reFindAll linkRE text.data

/-! ## URL resolution (external collaborator) -/

/-- Split a character list at the first occurrence of `"://"`. -/
def splitSep : List Char → Option (List Char × List Char)
  | [] => none
  | c :: t =>
    if ":/".data.isPrefixOf (c :: t) && t.tail.head? == some '/' then some ([], t.drop 2)
    else (splitSep t).map (fun p => (c :: p.1, p.2))

/-- Scheme and authority of a URL: everything up to the first `/` after the
`"://"` separator. -/
def schemeHost (base : String) : String :=
  match splitSep base.data with
  | some (pre, post) => ⟨pre ++ "://".data ++ post.takeWhile (fun c => !(c = '/'))⟩
  | none => ""

/-- The base URL up to and including the last `/` (its "directory"). -/
def dirname (base : String) : String :=
  ⟨(base.data.reverse.dropWhile (fun c => !(c = '/'))).reverse⟩

/-- Modelled from the spec: the `UrlNormalizer` component "resolves relative
references against a base URL" (spec 2).  `urllib.parse.urljoin` is an
external library routine, not part of this repository's source; this model
covers the reference shapes the crawler produces: a reference already
carrying a scheme (containing `"://"`) is returned unchanged, a
root-relative reference (leading `/`) is attached to the base's scheme and
authority, and any other reference replaces the last segment of the base's
path. -/
def urljoin (base rel : String) : String :=
  if pyIn "://" rel then rel
  else if pyStartsWith rel "/" then schemeHost base ++ rel
  else dirname base ++ rel

/-! ## Parsed pages -/

/-- One element as the HTML parser yields it.  Only the attributes the
crawler inspects are kept; `rel` is modelled as a single token (the parser
treats `rel` as multi-valued, and the filter `rel='stylesheet'` as
membership; single-token `rel` values make these coincide). -/
structure Tag where
  name : String
  href : Option String := none
  src : Option String := none
  rel : Option String := none
deriving DecidableEq

/-- A fetched page after parsing: the element list in document order (what
`soup.find_all` filters) and the decoded body text (what the regex
strategies scan). -/
structure Doc where
  tags : List Tag
  text : String
deriving DecidableEq

/-- BeautifulSoup attribute filter `src=re.compile(r'\.js$')`: the pattern
`search`es the attribute value, and `$` matches at the end or before one
final newline.  A tag without the attribute never matches. -/
def jsSrcMatch : Option String → Bool
  | none => false
  | some v => pyEndsWith v ".js" || pyEndsWith v ".js\n"

/-- `href=re.compile(r'\.css$')`, as for `jsSrcMatch`. -/
def cssHrefMatch : Option String → Bool
  | none => false
  | some v => pyEndsWith v ".css" || pyEndsWith v ".css\n"

/-- `src=re.compile(r'https?://')`: `search` finds the pattern anywhere in
the value. -/
def httpSrcMatch : Option String → Bool
  | none => false
  | some v => pyIn "http://" v || pyIn "https://" v

/-! ## The embedded-resource scan (src/paexkey.py line 62) -/

/-- The quote class `["\']` of the `url(...)` pattern. -/
def isQuote (c : Char) : Bool := c = '\"' || c = '\''

/-- The lazy `(.*?)["\']\)` tail of the `url(...)` pattern: the earliest
quote character that is followed by `)` closes the match; `.` does not
match a newline.  Returns the inner text and the remainder after the
closing parenthesis. -/
def lazyInner (acc : List Char) : List Char → Option (List Char × List Char)
  | [] => none
  | c :: cs =>
    if isQuote c && cs.head? == some ')' then some (acc.reverse, cs.tail)
    else if c = '\n' then none
    else lazyInner (c :: acc) cs

/-- `re.findall(r'(url\(["\'](.*?)["\']\))', text)`, keeping the inner
capture (the source discards the outer group).  Matches do not overlap; a
failed attempt resumes one character further. -/
def urlCallScanAux : Nat → List Char → List String
  | 0, _ => []
  | _ + 1, [] => []
  | f + 1, c :: cs =>
    if "url(".data.isPrefixOf (c :: cs) then
      match (c :: cs).drop 4 with
      | q :: rest =>
        if isQuote q then
          match lazyInner [] rest with
          | some (inner, rest2) => String.mk inner :: urlCallScanAux f rest2
          | none => urlCallScanAux f cs
        else urlCallScanAux f cs
      | [] => urlCallScanAux f cs
    else urlCallScanAux f cs

/-- All inner captures of the `url(...)` pattern in `text`. -/
def urlCallScan (text : String) : List String :=
  urlCallScanAux (text.data.length + 1) text.data

/-! ## The composite extraction (src/paexkey.py lines 42-94) -/

/-- The body of `extract_urls` after a successful textual fetch: the four
strategies append to `extracted_urls` in source order — the structural
`href` loop (lines 46-49), the `.js` scripts (54-56), the `.css`
stylesheets (58-60), the `url(...)` captures (62-65), the absolute-`src`
scripts (67-71), and finally the free-text regex matches (74-92). -/
def extract_doc (url : String) (d : Doc) : List String :=
  let extracted_urls : List String := []
  let extracted_urls := d.tags.foldl (fun acc tag =>
    if (tag.name = "a" || tag.name = "script" || tag.name = "link") && tag.href.isSome then
      acc ++ [urljoin url (tag.href.getD "")]
    else acc) extracted_urls
  let js_files := d.tags.filter (fun t => t.name = "script" && jsSrcMatch t.src)
  let extracted_urls := js_files.foldl (fun acc t =>
    acc ++ [urljoin url (t.src.getD "")]) extracted_urls
  let css_files := d.tags.filter
    (fun t => t.name = "link" && t.rel == some "stylesheet" && cssHrefMatch t.href)
  let extracted_urls := css_files.foldl (fun acc t =>
    acc ++ [urljoin url (t.href.getD "")]) extracted_urls
  let embedded_resources := urlCallScan d.text
  let extracted_urls := embedded_resources.foldl (fun acc e =>
    acc ++ [urljoin url e]) extracted_urls
  let third_party_scripts := d.tags.filter (fun t => t.name = "script" && httpSrcMatch t.src)
  let extracted_urls := third_party_scripts.foldl (fun acc t =>
    acc ++ (if t.src.isSome then [t.src.getD ""] else [])) extracted_urls
  let links_ := freeTextScan d.text
  extracted_urls ++ links_

/-- Spec strategy 1 (structural scan): every `a`/`script`/`link` element
carrying `href`, resolved against the base. -/
def structuralScan (url : String) (d : Doc) : List String :=
  (d.tags.filter (fun t =>
    (t.name = "a" || t.name = "script" || t.name = "link") && t.href.isSome)).map
    (fun t => urljoin url (t.href.getD ""))

/-- Spec strategy 2a: `script` elements whose `src` ends in `.js`, resolved. -/
def jsScan (url : String) (d : Doc) : List String :=
  (d.tags.filter (fun t => t.name = "script" && jsSrcMatch t.src)).map
    (fun t => urljoin url (t.src.getD ""))

/-- Spec strategy 2b: stylesheet `link` elements whose `href` ends in `.css`, resolved. -/
def cssScan (url : String) (d : Doc) : List String :=
  (d.tags.filter (fun t =>
    t.name = "link" && t.rel == some "stylesheet" && cssHrefMatch t.href)).map
    (fun t => urljoin url (t.href.getD ""))

/-- Spec strategy 3: the `url(...)` captures, resolved against the base. -/
def embeddedScan (url : String) (d : Doc) : List String :=
  (urlCallScan d.text).map (urljoin url)

/-- Spec strategy 2c: `script` elements whose `src` holds an absolute
`http`/`https` URL, emitted unresolved. -/
def thirdPartyScan (d : Doc) : List String :=
  (d.tags.filter (fun t => t.name = "script" && httpSrcMatch t.src)).map
    (fun t => t.src.getD "")

/-! ## Fetching and the crawl loop (src/paexkey.py lines 20-40, 144-160) -/

/-- An HTTP response: status code, declared content type, whether the body
bytes decode as UTF-8, and the parsed page. -/
structure Response where
  status : Nat
  contentType : String
  decodable : Bool
  doc : Doc
deriving DecidableEq

/-- The network: what `requests.get` yields per URL; `none` models a raised
`requests.exceptions.RequestException` (connection error, timeout, DNS). -/
def World : Type := String → Option Response

/-- Outcome of one `extract_urls` call: the GET requests it issued, the
updated global `visited_urls`, and either the returned list or `none` for
an uncaught `UnicodeDecodeError` (the `.decode('utf-8')` on line 40 sits
outside the `try` of lines 25-32, so it propagates to the caller). -/
structure ExtractOut where
  fetched : List String
  visited : List String
  result : Option (List String)
deriving DecidableEq

/-- src/paexkey.py lines 20-94: skip when already visited or too deep
(line 22), GET (line 26) — counted as a fetch whatever its outcome —
return `[]` on an exception (29-32) or a non-200 status (27-28), mark
visited (34), return `[]` for non-textual content (36-38), raise on a
decode failure (40), otherwise run the strategies. -/
def extract_urls (w : World) (argsDepth : Nat) (visited_urls : List String)
    (url : String) (depth : Nat) : ExtractOut :=
  if url ∈ visited_urls ∨ depth > argsDepth then ⟨[], visited_urls, some []⟩
  else
    match w url with
    | none => ⟨[url], visited_urls, some []⟩
    | some response =>
      if response.status ≠ 200 then ⟨[url], visited_urls, some []⟩
      else
        let visited2 := url :: visited_urls
        if ¬ is_textual_content response.contentType then ⟨[url], visited2, some []⟩
        else if ¬ response.decodable then ⟨[url], visited2, none⟩
        else ⟨[url], visited2, some (extract_doc url response.doc)⟩

/-- The crawl's mutable state: the frontier `urls_to_extract`, the global
`visited_urls`, the lines appended to the output file, and a log of every
URL a GET was issued for (in order). -/
structure CrawlState where
  frontier : List (String × Nat)
  visited : List String
  output : List String
  fetchLog : List String
deriving DecidableEq

/-- Result of one iteration of the `while urls_to_extract` loop. -/
inductive StepResult where
  | done (s : CrawlState)
  | next (s : CrawlState)
  | aborted (s : CrawlState)
deriving DecidableEq

/-- The state carried by a step result. -/
def StepResult.state : StepResult → CrawlState
  | .done s => s
  | .next s => s
  | .aborted s => s

/-- One iteration of the crawl loop (src/paexkey.py lines 144-160): pop the
front entry `(url, depth)`, run `extract_urls(url, depth + 1)` — note the
`depth + 1` in the `executor.submit` call on line 148 — and, for each
returned URL not in `visited_urls` with `depth + 1 <= args.depth`, append
it to the output file and enqueue it at `depth + 1`.  An exception from
`future.result()` (line 152) aborts the loop. -/
def crawlStep (w : World) (argsDepth : Nat) (s : CrawlState) : StepResult :=
  match s.frontier with
  | [] => .done s
  | (url, depth) :: rest =>
    let e := extract_urls w argsDepth s.visited url (depth + 1)
    match e.result with
    | none =>
      .aborted ⟨rest, e.visited, s.output, s.fetchLog ++ e.fetched⟩
    | some new_urls =>
      let acc2 := new_urls.foldl
        (fun (acc : List String × List (String × Nat)) new_url =>
          if new_url ∉ e.visited ∧ depth + 1 ≤ argsDepth then
            (acc.1 ++ [new_url], acc.2 ++ [(new_url, depth + 1)])
          else acc)
        (s.output, rest)
      .next ⟨acc2.2, e.visited, acc2.1, s.fetchLog ++ e.fetched⟩

/-- Final outcome of a crawl. -/
inductive CrawlOutcome where
  | finished (s : CrawlState)
  | aborted (s : CrawlState)
  | fuelOut (s : CrawlState)
deriving DecidableEq

/-- The state carried by a crawl outcome. -/
def CrawlOutcome.state : CrawlOutcome → CrawlState
  | .finished s => s
  | .aborted s => s
  | .fuelOut s => s

/-- The `while urls_to_extract:` loop, fuel-bounded (the fuel only caps the
number of iterations; a `fuelOut` result means the bound was reached). -/
def crawlRun (w : World) (argsDepth : Nat) : Nat → CrawlState → CrawlOutcome
  | 0, s => .fuelOut s
  | fuel + 1, s =>
    match crawlStep w argsDepth s with
    | .done s2 => .finished s2
    | .aborted s2 => .aborted s2
    | .next s2 => crawlRun w argsDepth fuel s2

/-- `urls_to_extract = [(args.url, 0)]` with empty visited set, output file
and fetch log (src/paexkey.py line 130). -/
def initState (seed : String) : CrawlState := ⟨[(seed, 0)], [], [], []⟩

/-! ## The keyword filter (src/paexkey.py lines 101-111)

Modelled at the level of line lists: `urls` are the lines of the crawl
output file (newlines included, as `readlines` keeps them), `keywords_lines`
the lines of the keyword file; the result is the line list written to the
filtered file. -/

/-- `keywords = [keyword.strip() ...]; [url for url in urls if
any(keyword in url for keyword in keywords)]`. -/
def filter_keywords (urls keywords_lines : List String) : List String :=
  let keywords := keywords_lines.map pystrip
  urls.filter (fun url => keywords.any (fun keyword => pyIn keyword url))

/-! ## Concrete worlds used by the closed theorems below -/

/-- A world with one page at the seed, carrying a single anchor. -/
def w1 : World := fun u =>
  if u = "http://s.example/" then
    some ⟨200, "text/html", true, ⟨[⟨"a", some "/b", none, none⟩], ""⟩⟩
  else none

/-- A world where the seed links (via absolute script `src`) to a page whose
body bytes are not valid UTF-8 and to a well-formed page. -/
def w2 : World := fun u =>
  if u = "http://s.example/" then
    some ⟨200, "text/html", true,
      ⟨[⟨"script", none, some "http://u1.example/", none⟩,
        ⟨"script", none, some "http://u2.example/", none⟩], ""⟩⟩
  else if u = "http://u1.example/" then some ⟨200, "text/html", false, ⟨[], ""⟩⟩
  else if u = "http://u2.example/" then some ⟨200, "text/html", true, ⟨[], ""⟩⟩
  else none

/-- A world where the seed page mentions the same URL twice and that URL
answers 404. -/
def w4 : World := fun u =>
  if u = "http://s.example/" then
    some ⟨200, "text/html", true,
      ⟨[⟨"script", none, some "http://u.example/p", none⟩,
        ⟨"script", none, some "http://u.example/p", none⟩], ""⟩⟩
  else if u = "http://u.example/p" then some ⟨404, "text/html", true, ⟨[], ""⟩⟩
  else none

/-- A world where every GET raises a transport error. -/
def wNone : World := fun _ => none

/-- A world serving a single binary (image/png) page. -/
def w6 : World := fun u =>
  if u = "http://img.example/i" then some ⟨200, "image/png", true, ⟨[], ""⟩⟩
  else none

/-- The page used to separate the embedded-resource and absolute-`src`
strategy order: one absolute-`src` script tag plus one `url(...)` construct. -/
def d7 : Doc :=
  ⟨[⟨"script", none, some "https://cdn.example/x", none⟩], "url('a.png')"⟩

/-! # Theorems -/

/-! ## String bridges -/

/-- `containsSub` decides list infixhood. -/
theorem containsSub_iff (hay need : List Char) :
    containsSub hay need = true ↔ need <:+: hay := by
  induction hay with
  | nil =>
    rw [containsSub]
    simp [ List.isPrefixOf_iff_prefix]
  | cons a t ih =>
    rw [containsSub, List.infix_cons_iff]
    simp [ List.isPrefixOf_iff_prefix, ih]

/-- The empty string is `pyIn` every string. -/
theorem pyIn_empty (s : String) : pyIn "" s = true := by
  unfold pyIn
  exact (containsSub_iff s.data "".data).mpr List.nil_infix

/-! ## C8 -/

/-- C8: `is_textual_content s` is true exactly when `s` begins with
`"text/"` or equals `"application/javascript"`; anything else, the empty
string included, yields false. -/
theorem C8_isTextual :
    (∀ s : String,
      is_textual_content s = true ↔ ("text/".data <+: s.data ∨ s = "application/javascript")) ∧
    is_textual_content "" = false := by
  constructor
  · intro s
    unfold is_textual_content pyStartsWith
    rw [Bool.or_eq_true]
    constructor
    · rintro (h | h)
      · exact Or.inl (by simpa using h)
      · exact Or.inr (by simpa using h)
    · rintro (h | h)
      · exact Or.inl (by simpa using h)
      · exact Or.inr (by simpa using h)
  · rfl

/-! ## C9 and C10 -/

/-- C9: a line survives the keyword filter exactly when it is an input line
containing some whitespace-stripped keyword as a substring: every filtered
line contains a stripped keyword, and every input line containing one
appears in the filtered output. -/
theorem C9_keywordFilter (urls keywords_lines : List String) (u : String) :
    (u ∈ filter_keywords urls keywords_lines →
      ∃ k ∈ keywords_lines, (pystrip k).data <:+: u.data) ∧
    (u ∈ urls → (∃ k ∈ keywords_lines, (pystrip k).data <:+: u.data) →
      u ∈ filter_keywords urls keywords_lines) := by
  constructor
  · intro hu
    unfold filter_keywords at hu
    rw [List.mem_filter] at hu
    obtain ⟨-, hany⟩ := hu
    rw [List.any_eq_true] at hany
    obtain ⟨k2, hk2, hin⟩ := hany
    rw [List.mem_map] at hk2
    obtain ⟨k, hk, rfl⟩ := hk2
    exact ⟨k, hk, (containsSub_iff _ _).mp hin⟩
  · intro hu ⟨k, hk, hsub⟩
    unfold filter_keywords
    rw [List.mem_filter]
    refine ⟨hu, List.any_eq_true.mpr ⟨pystrip k, List.mem_map_of_mem _ hk, ?_⟩⟩
    exact (containsSub_iff _ _).mpr hsub

/-- Closed instance of `C9_keywordFilter` (spec Scenario E). -/
theorem C9_keywordFilter_witness :
    ("http://x.test/admin/login\n" ∈
      filter_keywords ["http://x.test/admin/login\n", "http://x.test/home\n"] ["admin\n"]) ∧
    (∃ k ∈ ["admin\n"],
      (pystrip k).data <:+: "http://x.test/admin/login\n".data) :=
  ⟨(C9_keywordFilter ["http://x.test/admin/login\n", "http://x.test/home\n"] ["admin\n"]
      "http://x.test/admin/login\n").2 (by decide)
      ⟨"admin\n", by decide, by decide⟩,
    ⟨"admin\n", by decide, by decide⟩⟩

/-- C10: a keyword line that strips to the empty string makes the filter
pass every line through: the filtered file equals the unfiltered one. -/
theorem C10_blankKeyword (urls keywords_lines : List String) (k : String)
    (hk : k ∈ keywords_lines) (hs : pystrip k = "") :
    filter_keywords urls keywords_lines = urls := by
  unfold filter_keywords
  apply List.filter_eq_self.mpr
  intro u _
  apply List.any_eq_true.mpr
  exact ⟨pystrip k, List.mem_map_of_mem _ hk, hs ▸ pyIn_empty u⟩

/-- Closed instance of `C10_blankKeyword`: a blank keyword line lets every
URL line through. -/
theorem C10_blankKeyword_witness :
    filter_keywords ["http://a.test/x\n", "http://b.test/y\n"] ["  \n"]
      = ["http://a.test/x\n", "http://b.test/y\n"] :=
  C10_blankKeyword _ _ "  \n" (by decide) (by decide)

/-! ## C3: the free-text scan is dead on newline-free text

The pattern's first characters (after the leading `(?#...)` comment) are a
literal newline and eight spaces, so no match can start in text that
contains no newline at all. -/

/-- Sequencing the empty language on the left yields the empty language. -/
theorem sseq_void_left (b : RE) : sseq .void b = .void := by
  cases b <;> rfl

/-- Unfolding `deriv` on a sequence. -/
theorem deriv_seq (a b : RE) (x : Char) :
    deriv (.seq a b) x =
      if nullable a then salt (sseq (deriv a x) b) (deriv b x) else sseq (deriv a x) b := rfl

/-- Unfolding `deriv` on a literal. -/
theorem deriv_lit (c x : Char) : deriv (.lit c) x = if x = c then .eps else .void := rfl

/-- The pattern `linkRE` does not accept the empty string. -/
theorem nullable_linkRE : nullable linkRE = false := rfl

/-- Deriving the layout run by anything but a newline kills the match. -/
theorem deriv_wsRun (x : Char) (h : ¬ x = '\n') : deriv wsRun x = .void := by
  show deriv (.seq (.lit '\n') (strOf "        ".data)) x = .void
  rw [deriv_seq, show nullable (RE.lit '\n') = false from rfl,
    if_neg Bool.false_ne_true, deriv_lit, if_neg h, sseq_void_left]

/-- Deriving the whole pattern by anything but a newline kills the match. -/
theorem deriv_linkRE (x : Char) (h : ¬ x = '\n') : deriv linkRE x = .void := by
  show deriv (.seq wsRun linkTail) x = .void
  rw [deriv_seq, show nullable wsRun = false from rfl,
    if_neg Bool.false_ne_true, deriv_wsRun x h, sseq_void_left]

/-- The empty language never improves the best match seen so far. -/
theorem longestMatchAux_void (s : List Char) (k : Nat) (best : Option Nat) :
    longestMatchAux .void s k best = best := by
  induction s generalizing k with
  | nil => rfl
  | cons c cs ih => rw [longestMatchAux]; exact ih (k + 1)

/-- On newline-free text the pattern has no match at the front. -/
theorem longestMatchAux_linkRE (s : List Char) (k : Nat) (h : '\n' ∉ s) :
    longestMatchAux linkRE s k none = none := by
  cases s with
  | nil => rw [longestMatchAux, nullable_linkRE]; rfl
  | cons c cs =>
    have hc : ¬ c = '\n' := fun hc => h (hc ▸ List.mem_cons_self c cs)
    rw [longestMatchAux, deriv_linkRE c hc, nullable_linkRE]
    exact longestMatchAux_void cs (k + 1) _

/-- On newline-free text `re.findall` with the pattern finds nothing. -/
theorem reFindAllAux_linkRE (fuel : Nat) (s : List Char) (h : '\n' ∉ s) :
    reFindAllAux linkRE fuel s = [] := by
  induction fuel generalizing s with
  | zero => rfl
  | succ f ih =>
    cases s with
    | nil => simp [reFindAllAux, nullable_linkRE]
    | cons c cs =>
      have hcs : '\n' ∉ cs := fun hm => h (List.mem_cons_of_mem c hm)
      have hm : longestMatch linkRE (c :: cs) = none :=
        longestMatchAux_linkRE (c :: cs) 0 h
      rw [reFindAllAux, hm]
      exact ih cs hcs

/-- C3: the free-text URL scan (strategy 4) cannot emit anything from a
body without a newline — the pattern, compiled without `re.VERBOSE`,
requires its literal layout whitespace in the subject — so a plain
absolute URL embedded in ordinary text is never found, contradicting the
claim that it appears in the extraction output. -/
theorem C3_freeTextScanDead :
    (∀ body : String, '\n' ∉ body.data → freeTextScan body = []) ∧
    (pyIn "http://example.com/a" "Visit http://example.com/a for details." = true ∧
      freeTextScan "Visit http://example.com/a for details." = []) := by
  have dead : ∀ body : String, '\n' ∉ body.data → freeTextScan body = [] := by
    intro body h
    unfold freeTextScan reFindAll
    exact reFindAllAux_linkRE _ _ h
  exact ⟨dead, by decide, dead _ (by decide)⟩

/-- Closed instance of `C3_freeTextScanDead` at the failing input. -/
theorem C3_freeTextScanDead_witness :
    ('\n' ∉ "Visit http://example.com/a for details.".data) ∧
    freeTextScan "Visit http://example.com/a for details." = [] :=
  ⟨by decide, C3_freeTextScanDead.1 _ (by decide)⟩

/-! ## C7: strategy order of the composite extraction -/

/-- A fold that appends one element per item is the initial value followed
by the map. -/
theorem foldl_emit_map {α : Type} (f : α → String) (l : List α) (init : List String) :
    l.foldl (fun acc x => acc ++ [f x]) init = init ++ l.map f := by
  induction l generalizing init with
  | nil => simp
  | cons a t ih => simp [ih, List.append_assoc]

/-- A fold that appends one element per item passing a test is the initial
value followed by the filtered map. -/
theorem foldl_emit_if {α : Type} (p : α → Bool) (f : α → String)
    (l : List α) (init : List String) :
    l.foldl (fun acc x => if p x then acc ++ [f x] else acc) init
      = init ++ (l.filter p).map f := by
  induction l generalizing init with
  | nil => simp
  | cons a t ih =>
    by_cases h : p a <;> simp [List.filter_cons, h, ih, List.append_assoc]

/-- The absolute-`src` loop's inner `if 'src' in script.attrs` test is
redundant after the filter; the fold is the initial value followed by the
map of `src` values. -/
theorem foldl_emit_src (l : List Tag) (init : List String)
    (h : ∀ t ∈ l, t.src.isSome = true) :
    l.foldl (fun acc t => acc ++ (if t.src.isSome then [t.src.getD ""] else [])) init
      = init ++ l.map (fun t => t.src.getD "") := by
  induction l generalizing init with
  | nil => simp
  | cons a t ih =>
    rw [List.foldl_cons, if_pos (h a (List.mem_cons_self a t)),
      ih _ (fun x hx => h x (List.mem_cons_of_mem a hx)), List.map_cons]
    simp [List.append_assoc]

/-- A tag matching the absolute-`src` filter carries a `src` attribute. -/
theorem httpSrcMatch_isSome {o : Option String} (h : httpSrcMatch o = true) :
    o.isSome = true := by
  cases o with
  | none => exact absurd h (by simp [httpSrcMatch])
  | some v => rfl

/-- C7 (amended): the extraction output is the concatenation, in order, of
the structural scan, the `.js` script scan, the `.css` stylesheet scan,
the embedded `url(...)` scan, the absolute-`src` script scan, and the
free-text regex scan — the absolute-`src` values come after the embedded
resources, not within the typed-resource block — with no deduplication. -/
theorem C7_strategyOrder (url : String) (d : Doc) :
    extract_doc url d =
      structuralScan url d ++ jsScan url d ++ cssScan url d ++
        embeddedScan url d ++ thirdPartyScan d ++ freeTextScan d.text := by
  unfold extract_doc structuralScan jsScan cssScan embeddedScan thirdPartyScan
  try dsimp only
  rw [foldl_emit_if, foldl_emit_map, foldl_emit_map, foldl_emit_map,
    foldl_emit_src _ _ (fun t ht =>
      httpSrcMatch_isSome (Bool.and_elim_right (List.mem_filter.mp ht).2))]
  simp [List.append_assoc]

/-- Counterexample to C7 as stated: on a page with one absolute-`src`
script and one `url(...)` construct, the output is not in the claimed
order (typed-resource results, absolute-`src` included, before the
embedded-resource results). -/
theorem C7_cex :
    extract_doc "http://s.example/" d7 ≠
      structuralScan "http://s.example/" d7 ++ jsScan "http://s.example/" d7 ++
        cssScan "http://s.example/" d7 ++ thirdPartyScan d7 ++
        embeddedScan "http://s.example/" d7 ++ freeTextScan d7.text := by
  decide

/-! ## Crawl-level lemmas -/

/-- A GET is issued by `extract_urls` exactly when the URL is unvisited and
the passed depth is within `args.depth`. -/
theorem extract_urls_fetched (w : World) (d : Nat) (v : List String)
    (url : String) (dep : Nat) :
    (extract_urls w d v url dep).fetched = if url ∉ v ∧ dep ≤ d then [url] else [] := by
  unfold extract_urls
  by_cases hg : url ∈ v ∨ dep > d
  · rw [if_pos hg, if_neg (fun hc => by rcases hg with h | h; exact hc.1 h; omega)]
  · rw [if_neg hg]
    push_neg at hg
    rw [if_pos ⟨hg.1, hg.2⟩]
    cases w url with
    | none => rfl
    | some r =>
      try dsimp only
      split
      · rfl
      · try dsimp only
        split
        · rfl
        · split <;> rfl

/-- `extract_urls` leaves the visited set unchanged or pushes its URL. -/
theorem extract_urls_visited (w : World) (d : Nat) (v : List String)
    (url : String) (dep : Nat) :
    (extract_urls w d v url dep).visited = v ∨
      (extract_urls w d v url dep).visited = url :: v := by
  unfold extract_urls
  split
  · exact Or.inl rfl
  · cases w url with
    | none => exact Or.inl rfl
    | some r =>
      try dsimp only
      split
      · exact Or.inl rfl
      · try dsimp only
        split
        · exact Or.inr rfl
        · split <;> exact Or.inr rfl

/-- After popping `(u, dep)`, the step's state has `extract_urls`'s updated
visited set and appends its fetches to the log, whatever branch is taken. -/
theorem crawlStep_state_cons (w : World) (d : Nat) (s : CrawlState)
    (u : String) (dep : Nat) (rest : List (String × Nat))
    (hf : s.frontier = (u, dep) :: rest) :
    ((crawlStep w d s).state).visited = (extract_urls w d s.visited u (dep + 1)).visited ∧
    ((crawlStep w d s).state).fetchLog
      = s.fetchLog ++ (extract_urls w d s.visited u (dep + 1)).fetched := by
  unfold crawlStep
  rw [hf]
  try dsimp only
  split <;> exact ⟨rfl, rfl⟩

/-- One crawl step never removes a URL from the visited set. -/
theorem crawlStep_visited_mono (w : World) (d : Nat) (s : CrawlState) :
    s.visited ⊆ ((crawlStep w d s).state).visited := by
  cases hf : s.frontier with
  | nil =>
    unfold crawlStep
    rw [hf]
    exact fun x hx => hx
  | cons p rest =>
    obtain ⟨u, dep⟩ := p
    rw [(crawlStep_state_cons w d s u dep rest hf).1]
    rcases extract_urls_visited w d s.visited u (dep + 1) with h | h <;> rw [h]
    · exact fun x hx => hx
    · exact fun x hx => List.mem_cons_of_mem _ hx

/-- A URL already in the visited set receives no GET during a crawl step. -/
theorem crawlStep_count (w : World) (d : Nat) (s : CrawlState) (url : String)
    (h : url ∈ s.visited) :
    ((crawlStep w d s).state).fetchLog.count url = s.fetchLog.count url := by
  cases hf : s.frontier with
  | nil =>
    unfold crawlStep
    rw [hf]
    rfl
  | cons p rest =>
    obtain ⟨u, dep⟩ := p
    rw [(crawlStep_state_cons w d s u dep rest hf).2, extract_urls_fetched]
    by_cases hu : u ∉ s.visited ∧ dep + 1 ≤ d
    · rw [if_pos hu, List.count_append]
      have hne : url ≠ u := fun he => hu.1 (he ▸ h)
      simp [List.count_singleton', hne]
    · rw [if_neg hu]
      simp

/-- Along any run, the visited set only grows, and a URL already visited is
never fetched again. -/
theorem crawlRun_visited (w : World) (d : Nat) (url : String) :
    ∀ (fuel : Nat) (s : CrawlState),
      s.visited ⊆ ((crawlRun w d fuel s).state).visited ∧
      (url ∈ s.visited →
        ((crawlRun w d fuel s).state).fetchLog.count url = s.fetchLog.count url) := by
  intro fuel
  induction fuel with
  | zero => exact fun s => ⟨fun x hx => hx, fun _ => rfl⟩
  | succ f ih =>
    intro s
    unfold crawlRun
    cases hstep : crawlStep w d s with
    | done s2 =>
      have h1 := crawlStep_visited_mono w d s
      have h2 := fun h => crawlStep_count w d s url h
      rw [hstep] at h1 h2
      exact ⟨h1, h2⟩
    | aborted s2 =>
      have h1 := crawlStep_visited_mono w d s
      have h2 := fun h => crawlStep_count w d s url h
      rw [hstep] at h1 h2
      exact ⟨h1, h2⟩
    | next s2 =>
      have h1 := crawlStep_visited_mono w d s
      have h2 := fun h => crawlStep_count w d s url h
      rw [hstep] at h1 h2
      refine ⟨fun x hx => (ih s2).1 ((h1 : s.visited ⊆ s2.visited) hx), fun h => ?_⟩
      have e1 : ((crawlRun w d f s2).state).fetchLog.count url = s2.fetchLog.count url :=
        (ih s2).2 ((h1 : s.visited ⊆ s2.visited) h)
      have e2 : s2.fetchLog.count url = s.fetchLog.count url := h2 h
      exact e1.trans e2

/-- With `args.depth = 0` a crawl step pops its entry and changes nothing
else: the guard `depth + 1 > 0` always skips the fetch. -/
theorem crawlStep_depth0 (w : World) (s : CrawlState) (u : String) (dep : Nat)
    (rest : List (String × Nat)) (hf : s.frontier = (u, dep) :: rest) :
    crawlStep w 0 s = .next ⟨rest, s.visited, s.output, s.fetchLog⟩ := by
  have he : extract_urls w 0 s.visited u (dep + 1) = ⟨[], s.visited, some []⟩ := by
    unfold extract_urls
    rw [if_pos (Or.inr (Nat.succ_pos dep))]
  unfold crawlStep
  rw [hf]
  try dsimp only
  rw [he]
  try dsimp only
  rw [List.append_nil]
  rfl

/-- With `args.depth = 0` a crawl never fetches and never writes. -/
theorem crawlRun_depth0 (w : World) :
    ∀ (fuel : Nat) (s : CrawlState),
      ((crawlRun w 0 fuel s).state).fetchLog = s.fetchLog ∧
      ((crawlRun w 0 fuel s).state).output = s.output := by
  intro fuel
  induction fuel with
  | zero => exact fun s => ⟨rfl, rfl⟩
  | succ f ih =>
    intro s
    cases hf : s.frontier with
    | nil =>
      unfold crawlRun crawlStep
      rw [hf]
      exact ⟨rfl, rfl⟩
    | cons p rest =>
      obtain ⟨u, dep⟩ := p
      unfold crawlRun
      rw [crawlStep_depth0 w s u dep rest hf]
      exact ih ⟨rest, s.visited, s.output, s.fetchLog⟩

/-! ## C1: depth gating of a dequeued frontier entry -/

/-- C1 (amended): a dequeued frontier entry `(url, depth)` triggers a GET
iff `url` is unvisited and `depth + 1 ≤ args.depth` — the loop passes
`depth + 1`, not `depth`, to `extract_urls` — and consequently with
`args.depth = 0` nothing at all is fetched (the seed included) and the
output file stays empty. -/
theorem C1_depthGate :
    (∀ (w : World) (d : Nat) (s : CrawlState) (url : String) (depth : Nat)
      (rest : List (String × Nat)), s.frontier = (url, depth) :: rest →
      ((crawlStep w d s).state).fetchLog
        = s.fetchLog ++ (if url ∉ s.visited ∧ depth + 1 ≤ d then [url] else [])) ∧
    (∀ (w : World) (seed : String) (fuel : Nat),
      ((crawlRun w 0 fuel (initState seed)).state).fetchLog = [] ∧
      ((crawlRun w 0 fuel (initState seed)).state).output = []) := by
  constructor
  · intro w d s url depth rest hf
    rw [(crawlStep_state_cons w d s url depth rest hf).2, extract_urls_fetched]
  · intro w seed fuel
    exact crawlRun_depth0 w fuel (initState seed)

/-- Closed instance of `C1_depthGate`: the seed entry of a fresh crawl at
`args.depth = 2` is fetched. -/
theorem C1_depthGate_witness :
    ((crawlStep w1 2 (initState "http://s.example/")).state).fetchLog
      = (initState "http://s.example/").fetchLog ++
        (if "http://s.example/" ∉ (initState "http://s.example/").visited ∧ 0 + 1 ≤ 2
          then ["http://s.example/"] else []) :=
  C1_depthGate.1 w1 2 (initState "http://s.example/") "http://s.example/" 0 [] rfl

/-- Counterexample to C1 as stated: with `maxDepth = 0` the seed entry sits
at depth `0 ≤ 0` and is unvisited, yet the whole run issues no GET at all
and writes nothing — the seed is not fetched and its page's candidates are
never discovered. -/
theorem C1_depthGate_cex :
    (initState "http://s.example/").frontier = [("http://s.example/", 0)] ∧
    "http://s.example/" ∉ (initState "http://s.example/").visited ∧
    ((crawlRun w1 0 5 (initState "http://s.example/")).state).fetchLog = [] ∧
    ((crawlRun w1 0 5 (initState "http://s.example/")).state).output = [] := by
  decide

/-! ## C2: decode failures abort the crawl -/

/-- C2 (amended): a 200-status textual response whose bytes are not valid
UTF-8 raises out of `extract_urls` (the decode on line 40 sits outside the
`try`), aborting the whole crawl; the URL has already been marked visited,
and the remaining frontier entries are never processed. -/
theorem C2_decodeErrorAborts (w : World) (d : Nat) (s : CrawlState) (url : String)
    (depth : Nat) (rest : List (String × Nat)) (r : Response)
    (hf : s.frontier = (url, depth) :: rest) (hnv : url ∉ s.visited)
    (hd : depth + 1 ≤ d) (hw : w url = some r) (hs : r.status = 200)
    (ht : is_textual_content r.contentType = true) (hdec : r.decodable = false) :
    crawlStep w d s = .aborted ⟨rest, url :: s.visited, s.output, s.fetchLog ++ [url]⟩ ∧
    ∀ fuel, crawlRun w d (fuel + 1) s
      = .aborted ⟨rest, url :: s.visited, s.output, s.fetchLog ++ [url]⟩ := by
  have he : extract_urls w d s.visited url (depth + 1)
      = ⟨[url], url :: s.visited, none⟩ := by
    unfold extract_urls
    rw [if_neg (fun hg => by rcases hg with h | h; exact hnv h; omega), hw]
    try dsimp only
    rw [if_neg (fun hne => hne hs)]
    try dsimp only
    rw [if_neg (fun hnt => hnt ht), if_pos (by rw [hdec]; exact Bool.false_ne_true)]
  have hstep : crawlStep w d s
      = .aborted ⟨rest, url :: s.visited, s.output, s.fetchLog ++ [url]⟩ := by
    unfold crawlStep
    rw [hf]
    try dsimp only
    rw [he]
  exact ⟨hstep, fun fuel => by unfold crawlRun; rw [hstep]⟩

/-- Closed instance of `C2_decodeErrorAborts` at a concrete undecodable
page. -/
theorem C2_decodeErrorAborts_witness :
    crawlStep w2 2 (initState "http://u1.example/")
      = .aborted ⟨[], ["http://u1.example/"], [], ["http://u1.example/"]⟩ ∧
    ∀ fuel, crawlRun w2 2 (fuel + 1) (initState "http://u1.example/")
      = .aborted ⟨[], ["http://u1.example/"], [], ["http://u1.example/"]⟩ :=
  C2_decodeErrorAborts w2 2 (initState "http://u1.example/") "http://u1.example/"
    0 [] ⟨200, "text/html", false, ⟨[], ""⟩⟩ rfl (by decide) (by decide)
    (by decide) rfl rfl rfl

/-- Counterexample to C2 as stated: in `w2` the seed's page links to an
undecodable page `u1` and a fine page `u2`; the run aborts at `u1` (the
exception propagates) with `u2` still in the frontier and never fetched,
instead of continuing unaffected with a skip result. -/
theorem C2_decodeError_cex :
    crawlRun w2 2 10 (initState "http://s.example/")
      = .aborted ⟨[("http://u2.example/", 1)],
          ["http://u1.example/", "http://s.example/"],
          ["http://u1.example/", "http://u2.example/"],
          ["http://s.example/", "http://u1.example/"]⟩ := by
  decide

/-! ## C4: visited-set monotonicity and refetching -/

/-- C4 (amended): within one run the visited set only grows, and a URL that
has entered the visited set (i.e. was fetched with status 200) is never
fetched again; a URL whose fetch failed is not in the set and may be
fetched again. -/
theorem C4_visitedMonotone (w : World) (d fuel : Nat) (s : CrawlState) (url : String) :
    s.visited ⊆ ((crawlRun w d fuel s).state).visited ∧
    (url ∈ s.visited →
      ((crawlRun w d fuel s).state).fetchLog.count url = s.fetchLog.count url) :=
  crawlRun_visited w d url fuel s

/-- Closed instance of `C4_visitedMonotone`: an already-visited URL gets no
further GETs in a run over `w4`. -/
theorem C4_visitedMonotone_witness :
    ("http://a.example/" ∈
      (⟨[("http://b.example/", 0)], ["http://a.example/"], [], []⟩ : CrawlState).visited) ∧
    ((crawlRun w4 2 5
        (⟨[("http://b.example/", 0)], ["http://a.example/"], [], []⟩ : CrawlState)).state).fetchLog.count
        "http://a.example/"
      = (⟨[("http://b.example/", 0)], ["http://a.example/"], [], []⟩ : CrawlState).fetchLog.count
        "http://a.example/" :=
  ⟨by decide,
    (C4_visitedMonotone w4 2 5
      (⟨[("http://b.example/", 0)], ["http://a.example/"], [], []⟩ : CrawlState)
      "http://a.example/").2 (by decide)⟩

/-- Counterexample to C4 as stated: in `w4` the seed page mentions the same
URL twice, that URL answers 404 (so it is never marked visited), and the
run issues two GETs for it. -/
theorem C4_refetch_cex :
    ((crawlRun w4 2 8 (initState "http://s.example/")).state).fetchLog.count
      "http://u.example/p" = 2 := by
  decide

/-! ## C5: failed fetches leave no trace and allow retry -/

/-- C5: when the GET for a dequeued, unvisited, in-depth entry raises a
transport error or returns a non-200 status, `extract_urls` returns no
candidates, the URL is not marked visited, nothing is written from it, the
crawl continues (`.next`, not `.aborted`) with only the entry popped and
the GET logged — so the URL, still unvisited, may be fetched again later. -/
theorem C5_failedFetchSkipped (w : World) (d : Nat) (s : CrawlState) (url : String)
    (depth : Nat) (rest : List (String × Nat))
    (hf : s.frontier = (url, depth) :: rest) (hnv : url ∉ s.visited)
    (hd : depth + 1 ≤ d)
    (hfail : w url = none ∨ ∃ r, w url = some r ∧ r.status ≠ 200) :
    (extract_urls w d s.visited url (depth + 1)).result = some [] ∧
    crawlStep w d s = .next ⟨rest, s.visited, s.output, s.fetchLog ++ [url]⟩ := by
  have he : extract_urls w d s.visited url (depth + 1)
      = ⟨[url], s.visited, some []⟩ := by
    unfold extract_urls
    rw [if_neg (fun hg => by rcases hg with h | h; exact hnv h; omega)]
    rcases hfail with h | ⟨r, hw, hs⟩
    · rw [h]
    · rw [hw]
      try dsimp only
      rw [if_pos hs]
  refine ⟨by rw [he], ?_⟩
  unfold crawlStep
  rw [hf]
  try dsimp only
  rw [he]
  rfl

/-- Closed instance of `C5_failedFetchSkipped` under a world where every
GET raises. -/
theorem C5_failedFetchSkipped_witness :
    (extract_urls wNone 2 [] "http://e.example/" (0 + 1)).result = some [] ∧
    crawlStep wNone 2 (initState "http://e.example/")
      = .next ⟨[], [], [], ["http://e.example/"]⟩ :=
  C5_failedFetchSkipped wNone 2 (initState "http://e.example/") "http://e.example/"
    0 [] rfl (by decide) (by decide) (Or.inl rfl)

/-! ## C6: successfully fetched binary pages are visited, yield nothing -/

/-- C6: a 200-status fetch with a non-textual content type yields zero
extracted URLs, yet marks the URL visited; thereafter no run from the
resulting state ever issues another GET for it. -/
theorem C6_binaryStillVisited (w : World) (d : Nat) (s : CrawlState) (url : String)
    (depth : Nat) (rest : List (String × Nat)) (r : Response)
    (hf : s.frontier = (url, depth) :: rest) (hnv : url ∉ s.visited)
    (hd : depth + 1 ≤ d) (hw : w url = some r) (hs : r.status = 200)
    (ht : is_textual_content r.contentType = false) :
    (extract_urls w d s.visited url (depth + 1)).result = some [] ∧
    crawlStep w d s = .next ⟨rest, url :: s.visited, s.output, s.fetchLog ++ [url]⟩ ∧
    ∀ fuel,
      ((crawlRun w d fuel
          (⟨rest, url :: s.visited, s.output, s.fetchLog ++ [url]⟩ : CrawlState)).state).fetchLog.count url
        = (s.fetchLog ++ [url]).count url := by
  have he : extract_urls w d s.visited url (depth + 1)
      = ⟨[url], url :: s.visited, some []⟩ := by
    unfold extract_urls
    rw [if_neg (fun hg => by rcases hg with h | h; exact hnv h; omega), hw]
    try dsimp only
    rw [if_neg (fun hne => hne hs)]
    try dsimp only
    rw [if_pos (by rw [ht]; exact Bool.false_ne_true)]
  have hstep : crawlStep w d s
      = .next ⟨rest, url :: s.visited, s.output, s.fetchLog ++ [url]⟩ := by
    unfold crawlStep
    rw [hf]
    try dsimp only
    rw [he]
    rfl
  refine ⟨by rw [he], hstep, fun fuel => ?_⟩
  exact (crawlRun_visited w d url fuel _).2 (List.mem_cons_self url s.visited)

/-- Closed instance of `C6_binaryStillVisited` at a concrete `image/png`
page. -/
theorem C6_binaryStillVisited_witness :
    (extract_urls w6 2 [] "http://img.example/i" (0 + 1)).result = some [] ∧
    crawlStep w6 2 (initState "http://img.example/i")
      = .next ⟨[], ["http://img.example/i"], [], ["http://img.example/i"]⟩ ∧
    ((crawlRun w6 2 3
        (⟨[], ["http://img.example/i"], [], ["http://img.example/i"]⟩ : CrawlState)).state).fetchLog.count
        "http://img.example/i"
      = (([] : List String) ++ ["http://img.example/i"]).count "http://img.example/i" :=
  ⟨(C6_binaryStillVisited w6 2 (initState "http://img.example/i") "http://img.example/i"
      0 [] ⟨200, "image/png", true, ⟨[], ""⟩⟩ rfl (by decide) (by decide) rfl rfl rfl).1,
    (C6_binaryStillVisited w6 2 (initState "http://img.example/i") "http://img.example/i"
      0 [] ⟨200, "image/png", true, ⟨[], ""⟩⟩ rfl (by decide) (by decide) rfl rfl rfl).2.1,
    (C6_binaryStillVisited w6 2 (initState "http://img.example/i") "http://img.example/i"
      0 [] ⟨200, "image/png", true, ⟨[], ""⟩⟩ rfl (by decide) (by decide) rfl rfl rfl).2.2 3⟩

end Paexkey
